import Mathlib

/-!
Shallow embedding of the subtree-filter-to-XPath compiler of netopeer2's
src/common.c (functions strws, op_filter_xpath_add_filter,
filter_xpath_buf_add_attrs, filter_xpath_buf_get_content,
filter_xpath_buf_add_top_content, filter_xpath_buf_add_content,
filter_xpath_buf_add_node, filter_xpath_buf_add,
op_filter_build_xpath_from_subtree, op_filter_create).

Modelling conventions:
* The manual growable C buffer (char **buf together with its size counter) is
  modelled as a Lean String plus the Int size the C code threads around; the C
  code always sprintf-appends at offset (size - 1), so the String is the
  buffer's contents.  The return-code protocol of the C functions (positive
  new size, 0 for a silently dropped branch, -1 for an error) is kept as an
  Int result component.
* Every malloc/realloc/strdup the C code checks is one allocation event.  An
  allocation oracle (Nat → Bool) decides whether the n-th allocation of the
  request succeeds; the state St threads the allocation counter and the
  Filter List (char ***filters with *filter_count).
* libyang interns strings in a per-context dictionary, so the C pointer
  comparison (elem->ns->value != last_ns) coincides with string inequality;
  it is modelled as String inequality.
* The schema context is the minimal lookup interface the compiler consumes:
  a module has a name, a namespace and the names of its top-level schema
  nodes (what ly_ctx_get_module_by_ns and ly_ctx_get_module_iter/lys_getnext
  provide).
-/

namespace NpFilter

/-- Embeds the C isspace test for the ASCII whitespace characters, as used by
strws and the content trimming loops. -/
def isspace (c : Char) : Bool :=
  c == ' ' || c == '\t' || c == '\n' || c == '\x0b' || c == '\x0c' || c == '\r'

/-- Embeds strws (common.c:470-481): true iff every character of the string is
whitespace (an empty string counts as all-whitespace). -/
def strws (s : String) : Bool :=
  s.data.all isspace

/-- Schema module as consumed by the compiler: its name, its namespace and the
names of its top-level schema nodes (in lys_getnext order). -/
structure Module where
  name : String
  ns : String
  topNodes : List String
deriving Repr

/-- Schema context: the modules, in ly_ctx_get_module_iter order. -/
structure Ctx where
  modules : List Module
deriving Repr

/-- Embeds ly_ctx_get_module_by_ns: the module of the context with the given
namespace, if any. -/
def ly_ctx_get_module_by_ns (ctx : Ctx) (ns : String) : Option Module :=
  ctx.modules.find? (fun m => m.ns == ns)

/-- The NETCONF base envelope namespace the compiler always skips. -/
def netconf_base_ns : String :=
  "urn:ietf:params:xml:ns:netconf:base:1.0"

/-- Standard (LYXML_ATTR_STD) XML attribute of a filter element: optional
namespace, name and value.  Namespace declarations (LYXML_ATTR_NS) are not
part of this list, mirroring the type check in filter_xpath_buf_add_attrs. -/
structure Attr where
  ns : Option String
  name : String
  value : String
deriving Repr

/-- Filter XML element (struct lyxml_elem): local name, optional namespace
value, standard attributes, optional text content and child elements. -/
inductive Elem : Type where
  | node (name : String) (ns : Option String) (attrs : List Attr)
         (content : Option String) (children : List Elem)
deriving Repr

def Elem.name : Elem → String
  | .node n _ _ _ _ => n

def Elem.ns : Elem → Option String
  | .node _ x _ _ _ => x

def Elem.attrs : Elem → List Attr
  | .node _ _ a _ _ => a

def Elem.content : Elem → Option String
  | .node _ _ _ c _ => c

def Elem.children : Elem → List Elem
  | .node _ _ _ _ ch => ch

theorem Elem.sizeOf_children_lt (e : Elem) : sizeOf e.children < sizeOf e := by
  cases e with
  | node n ns a c ch => simp [Elem.children]

/-- Compilation state: the allocation counter and the Filter List
(char ***filters with *filter_count, i.e. the ordered output strings). -/
structure St where
  ctr : Nat
  filters : List String
deriving Repr

/-- Allocation oracle: whether the n-th allocation of the request succeeds. -/
abbrev Oracle := Nat → Bool

/-- The oracle under which every allocation succeeds (no out-of-memory). -/
def allocOK : Oracle := fun _ => true

/-- Performs one allocation event: consults the oracle at the current counter
and advances the counter. -/
def stAlloc (oracle : Oracle) (st : St) : Bool × St :=
  (oracle st.ctr, { st with ctr := st.ctr + 1 })

/-- Embeds op_filter_xpath_add_filter (common.c:483-498): grows the Filter
List by one string; on realloc failure returns -1 and leaves the list. -/
def op_filter_xpath_add_filter (oracle : Oracle) (new_filter : String) (st : St) :
    Int × St :=
  let (ok, st) := stAlloc oracle st
  if ok then (0, { st with filters := st.filters ++ [new_filter] })
  else (-1, st)

/-- Embeds filter_xpath_buf_add_attrs (common.c:500-532): appends one
`[@module:name='value']` predicate per standard attribute whose namespace
resolves to a module; attributes without a namespace or with an unknown one
are skipped.  Returns the new size, or -1 on realloc failure. -/
def filter_xpath_buf_add_attrs (ctx : Ctx) (oracle : Oracle) :
    List Attr → String → Int → St → Int × String × St
  | [], buf, size, st => (size, buf, st)
  | a :: rest, buf, size, st =>
    let module : Option Module :=
      match a.ns with
      | some ns => ly_ctx_get_module_by_ns ctx ns
      | none => none
    match module with
    | none => filter_xpath_buf_add_attrs ctx oracle rest buf size st
    | some m =>
      let new_size : Int := size + 2 + (m.name.length : Int) + 1 +
        (a.name.length : Int) + 2 + (a.value.length : Int) + 2
      let (ok, st) := stAlloc oracle st
      if ok then
        filter_xpath_buf_add_attrs ctx oracle rest
          (buf ++ "[@" ++ m.name ++ ":" ++ a.name ++ "='" ++ a.value ++ "']")
          new_size st
      else (-1, buf, st)

/-- Embeds filter_xpath_buf_get_content (common.c:534-557): the element's text
with leading and trailing whitespace stripped.  The libyang schema-aware
value translation ly_path_xml2json is external to the repository and is
modelled as the identity on the trimmed text (the function's strdup
fallback). -/
def filter_xpath_buf_get_content (elem : Elem) : String :=
  String.mk ((((elem.content.getD "").data.dropWhile isspace).reverse.dropWhile
    isspace).reverse)

/-- Embeds filter_xpath_buf_add_top_content (common.c:559-594): builds
`/module:name[text()='content']` (always single-quoted) for a top-level
content match node, appends the attribute predicates, and commits the string
to the Filter List. -/
def filter_xpath_buf_add_top_content (ctx : Ctx) (oracle : Oracle) (elem : Elem)
    (elem_module_name : String) (st : St) : Int × St :=
  let content := filter_xpath_buf_get_content elem
  let (ok, st) := stAlloc oracle st
  if ok then
    let buf := "/" ++ elem_module_name ++ ":" ++ elem.name ++ "[text()='" ++
      content ++ "']"
    let size : Int := 1 + (elem_module_name.length : Int) + 1 +
      (elem.name.length : Int) + 9 + (content.length : Int) + 3
    let (size, buf, st) := filter_xpath_buf_add_attrs ctx oracle elem.attrs buf size st
    if size = 0 then (0, st)
    else if size < 1 then (-1, st)
    else
      let (r, st) := op_filter_xpath_add_filter oracle buf st
      if r = 0 then (0, st) else (-1, st)
  else (-1, st)

/-- Embeds the namespace-resolution block that opens both
filter_xpath_buf_add_content and filter_xpath_buf_add_node (common.c:605-614
and 665-674): when no module name was supplied and the element's namespace
differs from the last used one and is not the base NETCONF namespace, resolve
it; `none` is the silent `return 0` for an unknown namespace, `some emn` the
(possibly absent) qualifying module name to use. -/
def filter_xpath_buf_resolve_module (ctx : Ctx) (elem : Elem)
    (elem_module_name : Option String) (last_ns : String) : Option (Option String) :=
  match elem_module_name, elem.ns with
  | none, some ns =>
    if ns != last_ns && ns != netconf_base_ns then
      match ly_ctx_get_module_by_ns ctx ns with
      | none => none
      | some m => some (some m.name)
    else some none
  | emn, _ => some emn

/-- Embeds filter_xpath_buf_add_content (common.c:596-654): renders a content
match node as a predicate `[module:name[@attrs]='content']` folded into the
buffer.  The literal is wrapped in double quotes iff the trimmed content
contains a single quote, else in single quotes.  Returns the new size, 0 for
an unresolvable namespace, -1 on allocation failure. -/
def filter_xpath_buf_add_content (ctx : Ctx) (oracle : Oracle) (elem : Elem)
    (elem_module_name : Option String) (last_ns : String) (buf : String)
    (size : Int) (st : St) : Int × String × St :=
  match filter_xpath_buf_resolve_module ctx elem elem_module_name last_ns with
  | none => (0, buf, st)
  | some emn =>
    let (ok, st) := stAlloc oracle st
    if ok then
      let pre : String := match emn with | some n => n ++ ":" | none => ""
      let size := size + 1 +
        (match emn with | some n => (n.length : Int) + 1 | none => 0) +
        (elem.name.length : Int)
      let buf := buf ++ "[" ++ pre ++ elem.name
      let (size, buf, st) := filter_xpath_buf_add_attrs ctx oracle elem.attrs buf size st
      if size = 0 then (0, buf, st)
      else if size < 1 then (-1, buf, st)
      else
        let content := filter_xpath_buf_get_content elem
        let new_size := size + 2 + (content.length : Int) + 2
        let (ok, st) := stAlloc oracle st
        if ok then
          let quot : String := if content.data.contains '\'' then "\"" else "'"
          (new_size, buf ++ "=" ++ quot ++ content ++ quot ++ "]", st)
        else (-1, buf, st)
    else (-1, buf, st)

/-- Embeds filter_xpath_buf_add_node (common.c:656-690): appends the location
step `/module:name` (or `/name` when the namespace is inherited) plus the
attribute predicates.  Returns the new size, 0 for an unresolvable namespace,
-1 on allocation failure. -/
def filter_xpath_buf_add_node (ctx : Ctx) (oracle : Oracle) (elem : Elem)
    (elem_module_name : Option String) (last_ns : String) (buf : String)
    (size : Int) (st : St) : Int × String × St :=
  match filter_xpath_buf_resolve_module ctx elem elem_module_name last_ns with
  | none => (0, buf, st)
  | some emn =>
    let (ok, st) := stAlloc oracle st
    if ok then
      let pre : String := match emn with | some n => n ++ ":" | none => ""
      let size := size + 1 +
        (match emn with | some n => (n.length : Int) + 1 | none => 0) +
        (elem.name.length : Int)
      let buf := buf ++ "/" ++ pre ++ elem.name
      filter_xpath_buf_add_attrs ctx oracle elem.attrs buf size st
    else (-1, buf, st)

/-- Embeds the content match test of filter_xpath_buf_add (common.c:714):
`!child->child && child->content && !strws(child->content)`. -/
def content_match_node (child : Elem) : Bool :=
  child.children.isEmpty && child.content.isSome && !strws (child.content.getD "")

/-- Embeds the first child loop of filter_xpath_buf_add (common.c:712-726):
folds every content match child into the buffer as a predicate and records
whether any non-content-match child was seen (the only_content_match_node
flag, returned last).  First result is 0 for a dropped branch, -1 for an
error, else the new size. -/
def filter_xpath_buf_add_content_loop (ctx : Ctx) (oracle : Oracle)
    (elem_module_name : Option String) (last_ns : String) :
    List Elem → String → Int → Bool → St → Int × String × Bool × St
  | [], buf, size, only, st => (size, buf, only, st)
  | child :: rest, buf, size, only, st =>
    if content_match_node child then
      let (size, buf, st) :=
        filter_xpath_buf_add_content ctx oracle child elem_module_name last_ns buf size st
      if size = 0 then (0, buf, only, st)
      else if size < 1 then (-1, buf, only, st)
      else filter_xpath_buf_add_content_loop ctx oracle elem_module_name last_ns
        rest buf size only st
    else filter_xpath_buf_add_content_loop ctx oracle elem_module_name last_ns
      rest buf size false st

mutual

/-- Embeds filter_xpath_buf_add (common.c:692-778), the recursive subtree
walker: appends the element's step, folds content match children into the
buffer, commits the buffer when only content match children exist, and
otherwise branches over the children (filter_xpath_buf_add_branch). -/
def filter_xpath_buf_add (ctx : Ctx) (oracle : Oracle) (elem : Elem)
    (elem_module_name : Option String) (last_ns : String) (buf : String)
    (size : Int) (st : St) : Int × St :=
  let (size, buf, st) :=
    filter_xpath_buf_add_node ctx oracle elem elem_module_name last_ns buf size st
  if size = 0 then (0, st)
  else if size < 1 then (-1, st)
  else
    let (size, buf, only, st) :=
      filter_xpath_buf_add_content_loop ctx oracle elem_module_name last_ns
        elem.children buf size true st
    if size = 0 then (0, st)
    else if size < 1 then (-1, st)
    else if only then
      let (r, st) := op_filter_xpath_add_filter oracle buf st
      if r = 0 then (0, st) else (-1, st)
    else
      filter_xpath_buf_add_branch ctx oracle last_ns elem.children buf size st
termination_by sizeOf elem
decreasing_by
  exact Elem.sizeOf_children_lt elem

/-- Embeds the second child loop of filter_xpath_buf_add (common.c:737-771):
for every child except the last, clone the buffer (one allocation); a child
with children is compiled recursively with its return value DISCARDED, as in
the C source; a childless child is appended as a selection step and committed
to the Filter List. -/
def filter_xpath_buf_add_branch (ctx : Ctx) (oracle : Oracle) (last_ns : String) :
    List Elem → String → Int → St → Int × St
  | [], _, _, st => (0, st)
  | child :: rest, buf, size, st =>
    let (cloneOk, st) :=
      if rest.isEmpty then (true, st)
      else stAlloc oracle st
    if cloneOk then
      if child.children.isEmpty then
        let (new_size, buf_new, st) :=
          filter_xpath_buf_add_node ctx oracle child none last_ns buf size st
        if new_size = 0 then
          filter_xpath_buf_add_branch ctx oracle last_ns rest buf size st
        else if new_size < 1 then (-1, st)
        else
          let (r, st) := op_filter_xpath_add_filter oracle buf_new st
          if r = 0 then filter_xpath_buf_add_branch ctx oracle last_ns rest buf size st
          else (-1, st)
      else
        let (_r, st) := filter_xpath_buf_add ctx oracle child none last_ns buf size st
        filter_xpath_buf_add_branch ctx oracle last_ns rest buf size st
    else (-1, st)
termination_by l => sizeOf l
decreasing_by
  all_goals simp_wf <;> omega

end

/-- Embeds the lys_getnext scan of op_filter_build_xpath_from_subtree
(common.c:810-823): whether the module exposes a top-level schema node with
the given name (the inner loop breaks at the first match). -/
def module_has_top_node (m : Module) (name : String) : Bool :=
  m.topNodes.contains name

/-- Embeds the candidate-module enumeration of
op_filter_build_xpath_from_subtree for an element without an explicit
namespace (common.c:807-825): every module exposing a top-level schema node
with the element's name, once per module (the lys_getnext loop breaks at the
first match), one realloc per match. -/
def op_filter_collect_modules (oracle : Oracle) (name : String) :
    List Module → List Module → St → Int × List Module × St
  | [], acc, st => (0, acc, st)
  | m :: rest, acc, st =>
    if module_has_top_node m name then
      let (ok, st) := stAlloc oracle st
      if ok then op_filter_collect_modules oracle name rest (acc ++ [m]) st
      else (-1, acc, st)
    else op_filter_collect_modules oracle name rest acc st

/-- Embeds the per-module loop of op_filter_build_xpath_from_subtree
(common.c:827-841): for each candidate module, either the top-level content
match special case or the general subtree walk seeded with `/module:name`. -/
def op_filter_build_modules (ctx : Ctx) (oracle : Oracle) (elem : Elem) :
    List Module → St → Int × St
  | [], st => (0, st)
  | m :: rest, st =>
    if content_match_node elem then
      let (r, st) := filter_xpath_buf_add_top_content ctx oracle elem m.name st
      if r = 0 then op_filter_build_modules ctx oracle elem rest st
      else (-1, st)
    else
      let (r, st) := filter_xpath_buf_add ctx oracle elem (some m.name) m.ns "" 1 st
      if r = 0 then op_filter_build_modules ctx oracle elem rest st
      else (-1, st)

/-- Embeds op_filter_build_xpath_from_subtree (common.c:780-853): for every
top-level sibling, resolve the candidate modules (one lookup for an explicit
namespace — skipping the element silently when the lookup fails — or the
ambiguity fan-out), then compile once per module.  On error the strings
already accumulated in the Filter List are freed and -1 is returned (the C
code leaves *filter_count dangling; the freed list is modelled as []). -/
def op_filter_build_xpath_from_subtree (ctx : Ctx) (oracle : Oracle) :
    List Elem → St → Int × St
  | [], st => (0, st)
  | next :: rest, st =>
    let explicitNs : Option String :=
      match next.ns with
      | some ns => if ns != netconf_base_ns then some ns else none
      | none => none
    match explicitNs with
    | some ns =>
      let (ok, st) := stAlloc oracle st
      if ok then
        match ly_ctx_get_module_by_ns ctx ns with
        | none => op_filter_build_xpath_from_subtree ctx oracle rest st
        | some m =>
          let (r, st) := op_filter_build_modules ctx oracle next [m] st
          if r = 0 then op_filter_build_xpath_from_subtree ctx oracle rest st
          else (-1, { st with filters := [] })
      else (-1, { st with filters := [] })
    | none =>
      let (r, mods, st) := op_filter_collect_modules oracle next.name ctx.modules [] st
      if r < 0 then (-1, { st with filters := [] })
      else
        let (r, st) := op_filter_build_modules ctx oracle next mods st
        if r = 0 then op_filter_build_xpath_from_subtree ctx oracle rest st
        else (-1, { st with filters := [] })

/-- Value of the anydata filter node (struct lyd_node_anydata): a string
payload (possibly NULL), a pre-parsed XML tree (value.xml, NULL modelled as
the empty root list), or one of the value types op_filter_create cannot use
(with the nullness of the union pointer, for the initial empty-filter
check). -/
inductive AnydataValue : Type where
  | str (s : Option String)
  | xml (roots : List Elem)
  | other (isNull : Bool)
deriving Repr

/-- Filter request node (struct lyd_node of the filter): its attributes as
(name, value_str) pairs in order, and its anydata payload. -/
structure FilterNode where
  attrs : List (String × String)
  value : AnydataValue
deriving Repr

/-- Embeds the attribute scan of op_filter_create (common.c:866-884):
`none` is the fatal `xpath filter without select` case, `some none` the
subtree case (attr == NULL), `some (some v)` the xpath case with select value
v.  A type attribute whose value is neither keeps scanning; the select search
restarts from the head of the attribute list, as in the C source. -/
def op_filter_scan_type (all : List (String × String)) :
    List (String × String) → Option (Option String)
  | [] => some none
  | (n, v) :: rest =>
    if n = "type" then
      if v = "xpath" then
        match all.find? (fun a => a.fst == "select") with
        | none => none
        | some sel => some (some sel.snd)
      else if v = "subtree" then some none
      else op_filter_scan_type all rest
    else op_filter_scan_type all rest

/-- Embeds the subtree branch of op_filter_create (common.c:886-919): a NULL
payload, or an empty string payload for the string value types, is an empty
filter (success); a string payload is parsed by the external XML parser
`parse` (lyxml_parse_mem with LYXML_PARSE_MULTIROOT; NULL, i.e. a parse error
or no root element, is modelled as the empty list); a pre-parsed XML payload
is used directly; other value types are errors. -/
def op_filter_create_subtree (parse : String → List Elem) (ctx : Ctx)
    (oracle : Oracle) (node : FilterNode) (st : St) : Int × St :=
  match node.value with
  | .str none => (0, st)
  | .str (some s) =>
    if s = "" then (0, st)
    else
      let roots := parse s
      if roots.isEmpty then (-1, st)
      else
        let (ret, st) := op_filter_build_xpath_from_subtree ctx oracle roots st
        if ret = 0 then (0, st) else (-1, st)
  | .xml roots =>
    if roots.isEmpty then (0, st)
    else
      let (ret, st) := op_filter_build_xpath_from_subtree ctx oracle roots st
      if ret = 0 then (0, st) else (-1, st)
  | .other isNull => if isNull then (0, st) else (-1, st)

/-- Embeds op_filter_create (common.c:855-938), the request dispatcher: scan
the type attribute; an xpath filter without select is a fatal error; an xpath
filter with an empty select is an empty filter; otherwise the select string
is copied (strdup, one allocation) and appended verbatim; a subtree (or
untyped) filter goes through the subtree branch. -/
def op_filter_create (parse : String → List Elem) (ctx : Ctx) (oracle : Oracle)
    (node : FilterNode) (st : St) : Int × St :=
  match op_filter_scan_type node.attrs node.attrs with
  | none => (-1, st)
  | some none => op_filter_create_subtree parse ctx oracle node st
  | some (some sel) =>
    if sel = "" then (0, st)
    else
      let (ok, st) := stAlloc oracle st
      if ok then
        let (r, st) := op_filter_xpath_add_filter oracle sel st
        if r = 0 then (0, st) else (-1, st)
      else (-1, st)

/-- Modelled from the spec: the external XML parser (lyxml_parse_mem of
libyang, consumed through the parse interface of section 6 of the spec) on a
whitespace-only payload.  Such text contains no element at all, so the parse
produces no root elements (the C NULL result). -/
def lyxml_parse_whitespace : String → List Elem := fun _ => []

/-! Concrete fixtures used by the claim theorems and witnesses. -/

/-- Schema context with one module `m` (namespace urn:m, top-level node top). -/
def ctx1 : Ctx := ⟨[⟨"m", "urn:m", ["top"]⟩]⟩

/-- Schema context with two modules exposing a top-level node named top. -/
def ctx2 : Ctx := ⟨[⟨"m1", "urn:m1", ["top"]⟩, ⟨"m2", "urn:m2", ["top", "zzz"]⟩,
  ⟨"m3", "urn:m3", ["other"]⟩]⟩

/-- Containment element with one content match child c and one selection
child d. -/
def elemC1 : Elem := .node "top" (some "urn:m") [] none
  [.node "c" none [] (some "v") [], .node "d" none [] none []]

/-- Containment element with a nested containment child b (with grandchild c)
and a selection child e. -/
def elemC2 : Elem := .node "a" (some "urn:m") [] none
  [.node "b" none [] none [.node "c" none [] none []], .node "e" none [] none []]

/-- Oracle under which exactly the fourth allocation (index 3) fails: for
elemC2 this is the first realloc inside the recursive
filter_xpath_buf_add call for the containment child b. -/
def failAt3 : Oracle := fun n => n != 3

/-- Top-level content match element whose content holds a single quote. -/
def elemC5 : Elem := .node "n" (some "urn:m") [] (some "O'Brien") []

/-- The namespace of the ietf-interfaces module. -/
def uriIf : String := "urn:ietf:params:xml:ns:yang:ietf-interfaces"

/-- Schema context knowing the ietf-interfaces module. -/
def ctxIf : Ctx := ⟨[⟨"ietf-interfaces", uriIf, ["interfaces"]⟩]⟩

/-- The parsed subtree filter
`<interfaces xmlns="urn:ietf:params:xml:ns:yang:ietf-interfaces">
<interface><name>eth0</name></interface></interfaces>` (children inherit the
default namespace). -/
def elemC6 : Elem := .node "interfaces" (some uriIf) [] none
  [.node "interface" (some uriIf) [] none
    [.node "name" (some uriIf) [] (some "eth0") []]]

/-- Root selection element without a namespace (ambiguity fan-out input). -/
def elemC7 : Elem := .node "top" none [] none []

/-- Extension order: s extends p, i.e. p is a prefix of s (the committed
filter strings of a branch all extend the branch's buffer). -/
def IsPre (p s : String) : Prop := ∃ t, s = p ++ t

/-! Theorems. -/

/-- Unfolding lemma for the empty candidate-module list. -/
theorem op_filter_build_modules_nil (ctx : Ctx) (oracle : Oracle) (elem : Elem)
    (st : St) : op_filter_build_modules ctx oracle elem [] st = (0, st) := by
  simp [op_filter_build_modules]

/-- Unfolding lemma for the empty top-level sibling list. -/
theorem op_filter_build_xpath_nil (ctx : Ctx) (oracle : Oracle) (st : St) :
    op_filter_build_xpath_from_subtree ctx oracle [] st = (0, st) := by
  simp [op_filter_build_xpath_from_subtree]

/-- Unfolding lemma for op_filter_build_modules on a single candidate module
whose element is not a content match node, at variable arguments. -/
theorem op_filter_build_modules_single (ctx : Ctx) (oracle : Oracle) (elem : Elem)
    (m : Module) (st : St) (hcm : content_match_node elem = false) :
    op_filter_build_modules ctx oracle elem [m] st =
      (let p := filter_xpath_buf_add ctx oracle elem (some m.name) m.ns "" 1 st
       if p.1 = 0 then (0, p.2) else (-1, p.2)) := by
  unfold op_filter_build_modules
  simp [hcm, op_filter_build_modules_nil]

/-- Unfolding lemma for the top-level loop of op_filter_build_xpath_from_subtree
at an element with an explicit known namespace, at variable arguments. -/
theorem op_filter_build_xpath_explicit (ctx : Ctx) (oracle : Oracle) (next : Elem)
    (rest : List Elem) (st : St) (u : String) (m : Module)
    (hns : next.ns = some u) (hbase : u ≠ netconf_base_ns)
    (hok : oracle st.ctr = true) (hm : ly_ctx_get_module_by_ns ctx u = some m) :
    op_filter_build_xpath_from_subtree ctx oracle (next :: rest) st =
      (let p := op_filter_build_modules ctx oracle next [m] ⟨st.ctr + 1, st.filters⟩
       if p.1 = 0 then op_filter_build_xpath_from_subtree ctx oracle rest p.2
       else (-1, { p.2 with filters := [] })) := by
  conv_lhs => unfold op_filter_build_xpath_from_subtree
  rw [hns]
  simp [hbase, hok, hm, stAlloc, bne_iff_ne]

/-- Evaluation steps of the C1 example, staged bottom-up so each lemma closes
one call of the walker (elemC1: containment node top with content match child
c and selection child d). -/
theorem c1ex_node_top (ctx : Ctx) : filter_xpath_buf_add_node ctx allocOK
    (.node "top" (some "urn:m") [] none
      [.node "c" none [] (some "v") [], .node "d" none [] none []])
    (some "m") "urn:m" "" 1 ⟨1, []⟩ = (7, "/m:top", ⟨2, []⟩) := by
  simp [filter_xpath_buf_add_node, filter_xpath_buf_resolve_module,
    filter_xpath_buf_add_attrs, stAlloc, allocOK, Elem.name, Elem.ns, Elem.attrs,
    String.data, String.length, List.length_cons]

theorem c1ex_content_c (ctx : Ctx) : filter_xpath_buf_add_content ctx allocOK
    (.node "c" none [] (some "v") []) (some "m") "urn:m" "/m:top" 7 ⟨2, []⟩ =
    (16, "/m:top[m:c='v']", ⟨4, []⟩) := by
  simp [filter_xpath_buf_add_content, filter_xpath_buf_resolve_module,
    filter_xpath_buf_add_attrs, filter_xpath_buf_get_content, stAlloc, allocOK,
    isspace, Elem.name, Elem.ns, Elem.attrs, Elem.content,
    String.data, String.length, List.length_cons]

theorem c1ex_content_loop (ctx : Ctx) : filter_xpath_buf_add_content_loop ctx
    allocOK (some "m") "urn:m"
    [.node "c" none [] (some "v") [], .node "d" none [] none []]
    "/m:top" 7 true ⟨2, []⟩ = (16, "/m:top[m:c='v']", false, ⟨4, []⟩) := by
  simp [filter_xpath_buf_add_content_loop, c1ex_content_c, content_match_node,
    strws, isspace, Elem.content, Elem.children, String.data]

theorem c1ex_node_c_again (ctx : Ctx) : filter_xpath_buf_add_node ctx allocOK
    (.node "c" none [] (some "v") []) none "urn:m" "/m:top[m:c='v']" 16 ⟨5, []⟩ =
    (18, "/m:top[m:c='v']/c", ⟨6, []⟩) := by
  simp [filter_xpath_buf_add_node, filter_xpath_buf_resolve_module,
    filter_xpath_buf_add_attrs, stAlloc, allocOK, Elem.name, Elem.ns, Elem.attrs,
    String.data, String.length, List.length_cons]

theorem c1ex_node_d (ctx : Ctx) : filter_xpath_buf_add_node ctx allocOK
    (.node "d" none [] none []) none "urn:m" "/m:top[m:c='v']" 16
    ⟨7, ["/m:top[m:c='v']/c"]⟩ =
    (18, "/m:top[m:c='v']/d", ⟨8, ["/m:top[m:c='v']/c"]⟩) := by
  simp [filter_xpath_buf_add_node, filter_xpath_buf_resolve_module,
    filter_xpath_buf_add_attrs, stAlloc, allocOK, Elem.name, Elem.ns, Elem.attrs,
    String.data, String.length, List.length_cons]

theorem c1ex_branch (ctx : Ctx) : filter_xpath_buf_add_branch ctx allocOK "urn:m"
    [.node "c" none [] (some "v") [], .node "d" none [] none []]
    "/m:top[m:c='v']" 16 ⟨4, []⟩ =
    (0, ⟨9, ["/m:top[m:c='v']/c", "/m:top[m:c='v']/d"]⟩) := by
  rw [filter_xpath_buf_add_branch]
  simp [c1ex_node_c_again, c1ex_node_d, filter_xpath_buf_add_branch,
    Elem.children, op_filter_xpath_add_filter, stAlloc, allocOK]

theorem c1ex_add_top (ctx : Ctx) : filter_xpath_buf_add ctx allocOK
    (.node "top" (some "urn:m") [] none
      [.node "c" none [] (some "v") [], .node "d" none [] none []])
    (some "m") "urn:m" "" 1 ⟨1, []⟩ =
    (0, ⟨9, ["/m:top[m:c='v']/c", "/m:top[m:c='v']/d"]⟩) := by
  rw [filter_xpath_buf_add]
  simp [c1ex_node_top, c1ex_content_loop, c1ex_branch, Elem.children]

/-- C1: a containment filter element with k non-content-match children is
claimed to contribute exactly k completed XPath strings, content match
children adding none.  The code evaluated at elemC1 (k = 1: content match
child c, selection child d) appends TWO strings: contrary to the comment on
filter_xpath_buf_add (common.c:692, \"removes content match nodes from
elem->child list!\"), the branching loop at common.c:738 still sees the
already-folded content match child c and re-emits it as a selection branch. -/
theorem C1_content_match_child_rebranched :
    (elemC1.children.filter (fun ch => !content_match_node ch)).length = 1 ∧
    (op_filter_build_xpath_from_subtree ctx1 allocOK [elemC1] ⟨0, []⟩).1 = 0 ∧
    (op_filter_build_xpath_from_subtree ctx1 allocOK [elemC1] ⟨0, []⟩).2.filters =
      ["/m:top[m:c='v']/c", "/m:top[m:c='v']/d"] := by
  have hstep : op_filter_build_xpath_from_subtree ctx1 allocOK [elemC1] ⟨0, []⟩ =
      (0, ⟨9, ["/m:top[m:c='v']/c", "/m:top[m:c='v']/d"]⟩) := by
    rw [op_filter_build_xpath_explicit ctx1 allocOK elemC1 [] ⟨0, []⟩ "urn:m"
      ⟨"m", "urn:m", ["top"]⟩ rfl (by decide) rfl rfl]
    rw [op_filter_build_modules_single ctx1 allocOK elemC1 ⟨"m", "urn:m", ["top"]⟩
      ⟨1, []⟩ (by decide)]
    rw [show (Module.mk "m" "urn:m" ["top"]).name = "m" from rfl]
    rw [show (Module.mk "m" "urn:m" ["top"]).ns = "urn:m" from rfl]
    rw [show elemC1 = Elem.node "top" (some "urn:m") [] none
      [.node "c" none [] (some "v") [], .node "d" none [] none []] from rfl]
    rw [c1ex_add_top]
    simp [op_filter_build_xpath_nil]
  refine ⟨by decide, ?_, ?_⟩
  · rw [hstep]
  · rw [hstep]

/-- Evaluation steps of the C2 example under failAt3 (the fourth allocation,
the realloc inside the recursive walker call for the containment child b,
fails), staged bottom-up. -/
theorem c2f_node_a (ctx : Ctx) : filter_xpath_buf_add_node ctx failAt3
    (.node "a" (some "urn:m") [] none
      [.node "b" none [] none [.node "c" none [] none []],
       .node "e" none [] none []])
    (some "m") "urn:m" "" 1 ⟨1, []⟩ = (5, "/m:a", ⟨2, []⟩) := by
  simp [filter_xpath_buf_add_node, filter_xpath_buf_resolve_module,
    filter_xpath_buf_add_attrs, stAlloc, failAt3, Elem.name, Elem.ns, Elem.attrs,
    String.data, String.length, List.length_cons]

theorem c2f_content_loop (ctx : Ctx) : filter_xpath_buf_add_content_loop ctx
    failAt3 (some "m") "urn:m"
    [.node "b" none [] none [.node "c" none [] none []],
     .node "e" none [] none []]
    "/m:a" 5 true ⟨2, []⟩ = (5, "/m:a", false, ⟨2, []⟩) := by
  simp [filter_xpath_buf_add_content_loop, content_match_node, Elem.content,
    Elem.children]

theorem c2f_node_b (ctx : Ctx) : filter_xpath_buf_add_node ctx failAt3
    (.node "b" none [] none [.node "c" none [] none []])
    none "urn:m" "/m:a" 5 ⟨3, []⟩ = (-1, "/m:a", ⟨4, []⟩) := by
  simp [filter_xpath_buf_add_node, filter_xpath_buf_resolve_module,
    filter_xpath_buf_add_attrs, stAlloc, failAt3, Elem.name, Elem.ns, Elem.attrs,
    String.data, String.length, List.length_cons]

theorem c2f_add_b (ctx : Ctx) : filter_xpath_buf_add ctx failAt3
    (.node "b" none [] none [.node "c" none [] none []])
    none "urn:m" "/m:a" 5 ⟨3, []⟩ = (-1, ⟨4, []⟩) := by
  rw [filter_xpath_buf_add]
  simp [c2f_node_b]

theorem c2f_node_e (ctx : Ctx) : filter_xpath_buf_add_node ctx failAt3
    (.node "e" none [] none []) none "urn:m" "/m:a" 5 ⟨4, []⟩ =
    (7, "/m:a/e", ⟨5, []⟩) := by
  simp [filter_xpath_buf_add_node, filter_xpath_buf_resolve_module,
    filter_xpath_buf_add_attrs, stAlloc, failAt3, Elem.name, Elem.ns, Elem.attrs,
    String.data, String.length, List.length_cons]

theorem c2f_branch (ctx : Ctx) : filter_xpath_buf_add_branch ctx failAt3 "urn:m"
    [.node "b" none [] none [.node "c" none [] none []],
     .node "e" none [] none []]
    "/m:a" 5 ⟨2, []⟩ = (0, ⟨6, ["/m:a/e"]⟩) := by
  rw [filter_xpath_buf_add_branch]
  simp [c2f_add_b, c2f_node_e, filter_xpath_buf_add_branch, Elem.children,
    op_filter_xpath_add_filter, stAlloc, failAt3]

theorem c2f_add_a (ctx : Ctx) : filter_xpath_buf_add ctx failAt3
    (.node "a" (some "urn:m") [] none
      [.node "b" none [] none [.node "c" none [] none []],
       .node "e" none [] none []])
    (some "m") "urn:m" "" 1 ⟨1, []⟩ = (0, ⟨6, ["/m:a/e"]⟩) := by
  rw [filter_xpath_buf_add]
  simp [c2f_node_a, c2f_content_loop, c2f_branch, Elem.children]

/-- Evaluation steps of the C2 example under allocOK (the full run), staged
bottom-up. -/
theorem c2k_node_a (ctx : Ctx) : filter_xpath_buf_add_node ctx allocOK
    (.node "a" (some "urn:m") [] none
      [.node "b" none [] none [.node "c" none [] none []],
       .node "e" none [] none []])
    (some "m") "urn:m" "" 1 ⟨1, []⟩ = (5, "/m:a", ⟨2, []⟩) := by
  simp [filter_xpath_buf_add_node, filter_xpath_buf_resolve_module,
    filter_xpath_buf_add_attrs, stAlloc, allocOK, Elem.name, Elem.ns, Elem.attrs,
    String.data, String.length, List.length_cons]

theorem c2k_content_loop (ctx : Ctx) : filter_xpath_buf_add_content_loop ctx
    allocOK (some "m") "urn:m"
    [.node "b" none [] none [.node "c" none [] none []],
     .node "e" none [] none []]
    "/m:a" 5 true ⟨2, []⟩ = (5, "/m:a", false, ⟨2, []⟩) := by
  simp [filter_xpath_buf_add_content_loop, content_match_node, Elem.content,
    Elem.children]

theorem c2k_node_b (ctx : Ctx) : filter_xpath_buf_add_node ctx allocOK
    (.node "b" none [] none [.node "c" none [] none []])
    none "urn:m" "/m:a" 5 ⟨3, []⟩ = (7, "/m:a/b", ⟨4, []⟩) := by
  simp [filter_xpath_buf_add_node, filter_xpath_buf_resolve_module,
    filter_xpath_buf_add_attrs, stAlloc, allocOK, Elem.name, Elem.ns, Elem.attrs,
    String.data, String.length, List.length_cons]

theorem c2k_content_loop_b (ctx : Ctx) : filter_xpath_buf_add_content_loop ctx
    allocOK none "urn:m" [.node "c" none [] none []]
    "/m:a/b" 7 true ⟨4, []⟩ = (7, "/m:a/b", false, ⟨4, []⟩) := by
  simp [filter_xpath_buf_add_content_loop, content_match_node, Elem.content,
    Elem.children]

theorem c2k_node_c (ctx : Ctx) : filter_xpath_buf_add_node ctx allocOK
    (.node "c" none [] none []) none "urn:m" "/m:a/b" 7 ⟨4, []⟩ =
    (9, "/m:a/b/c", ⟨5, []⟩) := by
  simp [filter_xpath_buf_add_node, filter_xpath_buf_resolve_module,
    filter_xpath_buf_add_attrs, stAlloc, allocOK, Elem.name, Elem.ns, Elem.attrs,
    String.data, String.length, List.length_cons]

theorem c2k_branch_b (ctx : Ctx) : filter_xpath_buf_add_branch ctx allocOK "urn:m"
    [.node "c" none [] none []] "/m:a/b" 7 ⟨4, []⟩ = (0, ⟨6, ["/m:a/b/c"]⟩) := by
  rw [filter_xpath_buf_add_branch]
  simp [c2k_node_c, filter_xpath_buf_add_branch, Elem.children,
    op_filter_xpath_add_filter, stAlloc, allocOK]

theorem c2k_add_b (ctx : Ctx) : filter_xpath_buf_add ctx allocOK
    (.node "b" none [] none [.node "c" none [] none []])
    none "urn:m" "/m:a" 5 ⟨3, []⟩ = (0, ⟨6, ["/m:a/b/c"]⟩) := by
  rw [filter_xpath_buf_add]
  simp [c2k_node_b, c2k_content_loop_b, c2k_branch_b, Elem.children]

theorem c2k_node_e (ctx : Ctx) : filter_xpath_buf_add_node ctx allocOK
    (.node "e" none [] none []) none "urn:m" "/m:a" 5 ⟨6, ["/m:a/b/c"]⟩ =
    (7, "/m:a/e", ⟨7, ["/m:a/b/c"]⟩) := by
  simp [filter_xpath_buf_add_node, filter_xpath_buf_resolve_module,
    filter_xpath_buf_add_attrs, stAlloc, allocOK, Elem.name, Elem.ns, Elem.attrs,
    String.data, String.length, List.length_cons]

theorem c2k_branch_a (ctx : Ctx) : filter_xpath_buf_add_branch ctx allocOK "urn:m"
    [.node "b" none [] none [.node "c" none [] none []],
     .node "e" none [] none []]
    "/m:a" 5 ⟨2, []⟩ = (0, ⟨8, ["/m:a/b/c", "/m:a/e"]⟩) := by
  rw [filter_xpath_buf_add_branch]
  simp [c2k_add_b, c2k_node_e, filter_xpath_buf_add_branch, Elem.children,
    op_filter_xpath_add_filter, stAlloc, allocOK]

theorem c2k_add_a (ctx : Ctx) : filter_xpath_buf_add ctx allocOK
    (.node "a" (some "urn:m") [] none
      [.node "b" none [] none [.node "c" none [] none []],
       .node "e" none [] none []])
    (some "m") "urn:m" "" 1 ⟨1, []⟩ = (0, ⟨8, ["/m:a/b/c", "/m:a/e"]⟩) := by
  rw [filter_xpath_buf_add]
  simp [c2k_node_a, c2k_content_loop, c2k_branch_a, Elem.children]

/-- C2: an allocation failure at recursion depth two of the subtree walker is
claimed to abort the whole compilation.  Under failAt3 the realloc inside the
recursive filter_xpath_buf_add call for the containment child b of elemC2
fails (index 3), yet the call at common.c:754 discards the -1 return value:
compilation reports success (0) and returns the partial Filter List
[/m:a/e] (the full run under allocOK produces [/m:a/b/c, /m:a/e]). -/
theorem C2_nested_alloc_failure_swallowed :
    failAt3 3 = false ∧
    (op_filter_build_xpath_from_subtree ctx1 failAt3 [elemC2] ⟨0, []⟩).1 = 0 ∧
    (op_filter_build_xpath_from_subtree ctx1 failAt3 [elemC2] ⟨0, []⟩).2.filters =
      ["/m:a/e"] ∧
    (op_filter_build_xpath_from_subtree ctx1 allocOK [elemC2] ⟨0, []⟩).2.filters =
      ["/m:a/b/c", "/m:a/e"] := by
  have hshape : elemC2 = Elem.node "a" (some "urn:m") [] none
      [.node "b" none [] none [.node "c" none [] none []],
       .node "e" none [] none []] := rfl
  have hf : op_filter_build_xpath_from_subtree ctx1 failAt3 [elemC2] ⟨0, []⟩ =
      (0, ⟨6, ["/m:a/e"]⟩) := by
    rw [op_filter_build_xpath_explicit ctx1 failAt3 elemC2 [] ⟨0, []⟩ "urn:m"
      ⟨"m", "urn:m", ["top"]⟩ rfl (by decide) rfl rfl]
    rw [op_filter_build_modules_single ctx1 failAt3 elemC2 ⟨"m", "urn:m", ["top"]⟩
      ⟨1, []⟩ (by decide)]
    rw [show (Module.mk "m" "urn:m" ["top"]).name = "m" from rfl]
    rw [show (Module.mk "m" "urn:m" ["top"]).ns = "urn:m" from rfl]
    rw [hshape]
    rw [c2f_add_a]
    simp [op_filter_build_xpath_nil]
  have hk : op_filter_build_xpath_from_subtree ctx1 allocOK [elemC2] ⟨0, []⟩ =
      (0, ⟨8, ["/m:a/b/c", "/m:a/e"]⟩) := by
    rw [op_filter_build_xpath_explicit ctx1 allocOK elemC2 [] ⟨0, []⟩ "urn:m"
      ⟨"m", "urn:m", ["top"]⟩ rfl (by decide) rfl rfl]
    rw [op_filter_build_modules_single ctx1 allocOK elemC2 ⟨"m", "urn:m", ["top"]⟩
      ⟨1, []⟩ (by decide)]
    rw [show (Module.mk "m" "urn:m" ["top"]).name = "m" from rfl]
    rw [show (Module.mk "m" "urn:m" ["top"]).ns = "urn:m" from rfl]
    rw [hshape]
    rw [c2k_add_a]
    simp [op_filter_build_xpath_nil]
  refine ⟨by decide, ?_, ?_, ?_⟩
  · rw [hf]
  · rw [hf]
  · rw [hk]

/-- C5 counterexample: the claim extends the quote-selection rule to top-level
content match nodes, but filter_xpath_buf_add_top_content (common.c:576)
hard-codes single quotes: the top-level content match elemC5 with content
O'Brien renders as /m:n[text()='O'Brien'], not with double quotes. -/
theorem C5_top_content_always_single_quoted :
    content_match_node elemC5 = true ∧
    (filter_xpath_buf_add_top_content ctx1 allocOK elemC5 "m" ⟨0, []⟩).2.filters =
      ["/m:n[text()='O'Brien']"] ∧
    ("/m:n[text()='O'Brien']" : String) ≠ "/m:n[text()=\"O'Brien\"]" := by
  refine ⟨by decide, ?_, by decide⟩
  simp [filter_xpath_buf_add_top_content, filter_xpath_buf_add_attrs,
    filter_xpath_buf_get_content, op_filter_xpath_add_filter, stAlloc, allocOK,
    strws, isspace, Elem.name, Elem.ns, Elem.attrs, Elem.content, Elem.children,
    ctx1, elemC5, String.data, String.length, List.length_cons]

/-- C3 counterexample: the whitespace-only payload \" \" of a subtree filter
is claimed to compile to an empty Filter List with success, but
op_filter_create only short-circuits a NULL or zero-length payload
(common.c:886-891); the one-blank payload is handed to the XML parser, which
finds no root element in whitespace-only text, and the NULL check at
common.c:909 turns that into the error return -1. -/
theorem C3_whitespace_payload_error :
    strws " " = true ∧
    op_filter_create lyxml_parse_whitespace ctx1 allocOK
      ⟨[("type", "subtree")], .str (some " ")⟩ ⟨0, []⟩ = (-1, ⟨0, []⟩) := by
  refine ⟨by decide, ?_⟩
  simp [op_filter_create, op_filter_create_subtree, op_filter_scan_type,
    lyxml_parse_whitespace]

/-- Evaluation steps of the C6 example, staged bottom-up so each lemma closes
one call of the walker. -/
theorem ifex_node_top (ctx : Ctx) : filter_xpath_buf_add_node ctx
    allocOK
    (.node "interfaces" (some "urn:ietf:params:xml:ns:yang:ietf-interfaces") [] none
      [.node "interface" (some "urn:ietf:params:xml:ns:yang:ietf-interfaces") [] none
        [.node "name" (some "urn:ietf:params:xml:ns:yang:ietf-interfaces") []
          (some "eth0") []]])
    (some "ietf-interfaces") "urn:ietf:params:xml:ns:yang:ietf-interfaces" "" 1 ⟨1, []⟩ =
    (28, "/ietf-interfaces:interfaces", ⟨2, []⟩) := by
  simp [filter_xpath_buf_add_node, filter_xpath_buf_resolve_module,
    filter_xpath_buf_add_attrs, stAlloc, allocOK, Elem.name, Elem.ns, Elem.attrs,
    String.data, String.length, List.length_cons]

theorem ifex_node_interface (ctx : Ctx) : filter_xpath_buf_add_node ctx
    allocOK
    (.node "interface" (some "urn:ietf:params:xml:ns:yang:ietf-interfaces") [] none
      [.node "name" (some "urn:ietf:params:xml:ns:yang:ietf-interfaces") []
        (some "eth0") []])
    none "urn:ietf:params:xml:ns:yang:ietf-interfaces"
    "/ietf-interfaces:interfaces" 28 ⟨2, []⟩ =
    (38, "/ietf-interfaces:interfaces/interface", ⟨3, []⟩) := by
  simp [filter_xpath_buf_add_node, filter_xpath_buf_resolve_module,
    filter_xpath_buf_add_attrs, stAlloc, allocOK, Elem.name, Elem.ns, Elem.attrs,
    String.data, String.length, List.length_cons]

theorem ifex_content_name (ctx : Ctx) : filter_xpath_buf_add_content ctx
    allocOK
    (.node "name" (some "urn:ietf:params:xml:ns:yang:ietf-interfaces") []
      (some "eth0") [])
    none "urn:ietf:params:xml:ns:yang:ietf-interfaces"
    "/ietf-interfaces:interfaces/interface" 38 ⟨3, []⟩ =
    (51, "/ietf-interfaces:interfaces/interface[name='eth0']", ⟨5, []⟩) := by
  simp [filter_xpath_buf_add_content, filter_xpath_buf_resolve_module,
    filter_xpath_buf_add_attrs, filter_xpath_buf_get_content, stAlloc, allocOK,
    isspace, Elem.name, Elem.ns, Elem.attrs, Elem.content,
    String.data, String.length, List.length_cons]

theorem ifex_content_loop_interface (ctx : Ctx) : filter_xpath_buf_add_content_loop ctx
    allocOK none "urn:ietf:params:xml:ns:yang:ietf-interfaces"
    [.node "name" (some "urn:ietf:params:xml:ns:yang:ietf-interfaces") []
      (some "eth0") []]
    "/ietf-interfaces:interfaces/interface" 38 true ⟨3, []⟩ =
    (51, "/ietf-interfaces:interfaces/interface[name='eth0']", true, ⟨5, []⟩) := by
  simp [filter_xpath_buf_add_content_loop, ifex_content_name, content_match_node,
    strws, isspace, Elem.content, Elem.children, String.data]

theorem ifex_add_interface (ctx : Ctx) : filter_xpath_buf_add ctx
    allocOK
    (.node "interface" (some "urn:ietf:params:xml:ns:yang:ietf-interfaces") [] none
      [.node "name" (some "urn:ietf:params:xml:ns:yang:ietf-interfaces") []
        (some "eth0") []])
    none "urn:ietf:params:xml:ns:yang:ietf-interfaces"
    "/ietf-interfaces:interfaces" 28 ⟨2, []⟩ =
    (0, ⟨6, ["/ietf-interfaces:interfaces/interface[name='eth0']"]⟩) := by
  rw [filter_xpath_buf_add]
  simp [ifex_node_interface, ifex_content_loop_interface, Elem.children,
    op_filter_xpath_add_filter, stAlloc, allocOK]

theorem ifex_branch_top (ctx : Ctx) : filter_xpath_buf_add_branch ctx
    allocOK "urn:ietf:params:xml:ns:yang:ietf-interfaces"
    [.node "interface" (some "urn:ietf:params:xml:ns:yang:ietf-interfaces") [] none
      [.node "name" (some "urn:ietf:params:xml:ns:yang:ietf-interfaces") []
        (some "eth0") []]]
    "/ietf-interfaces:interfaces" 28 ⟨2, []⟩ =
    (0, ⟨6, ["/ietf-interfaces:interfaces/interface[name='eth0']"]⟩) := by
  rw [filter_xpath_buf_add_branch]
  simp [ifex_add_interface, Elem.children, filter_xpath_buf_add_branch]

theorem ifex_content_loop_top (ctx : Ctx) : filter_xpath_buf_add_content_loop ctx
    allocOK (some "ietf-interfaces") "urn:ietf:params:xml:ns:yang:ietf-interfaces"
    [.node "interface" (some "urn:ietf:params:xml:ns:yang:ietf-interfaces") [] none
      [.node "name" (some "urn:ietf:params:xml:ns:yang:ietf-interfaces") []
        (some "eth0") []]]
    "/ietf-interfaces:interfaces" 28 true ⟨2, []⟩ =
    (28, "/ietf-interfaces:interfaces", false, ⟨2, []⟩) := by
  simp [filter_xpath_buf_add_content_loop, content_match_node, Elem.content,
    Elem.children]

theorem ifex_add_top (ctx : Ctx) : filter_xpath_buf_add ctx
    allocOK
    (.node "interfaces" (some "urn:ietf:params:xml:ns:yang:ietf-interfaces") [] none
      [.node "interface" (some "urn:ietf:params:xml:ns:yang:ietf-interfaces") [] none
        [.node "name" (some "urn:ietf:params:xml:ns:yang:ietf-interfaces") []
          (some "eth0") []]])
    (some "ietf-interfaces") "urn:ietf:params:xml:ns:yang:ietf-interfaces" "" 1 ⟨1, []⟩ =
    (0, ⟨6, ["/ietf-interfaces:interfaces/interface[name='eth0']"]⟩) := by
  rw [filter_xpath_buf_add]
  simp [ifex_node_top, ifex_content_loop_top, ifex_branch_top, Elem.children]

/-- C6: compiling the subtree filter
`<interfaces xmlns="urn:ietf:params:xml:ns:yang:ietf-interfaces">
<interface><name>eth0</name></interface></interfaces>` against a schema
context that resolves that namespace to the module named ietf-interfaces
yields exactly the one-element Filter List
[/ietf-interfaces:interfaces/interface[name='eth0']]. -/
theorem C6_interfaces_example :
    (op_filter_build_xpath_from_subtree ctxIf allocOK [elemC6] ⟨0, []⟩).1 = 0 ∧
    (op_filter_build_xpath_from_subtree ctxIf allocOK [elemC6] ⟨0, []⟩).2.filters =
      ["/ietf-interfaces:interfaces/interface[name='eth0']"] := by
  have hstep : op_filter_build_xpath_from_subtree ctxIf allocOK [elemC6] ⟨0, []⟩ =
      (0, ⟨6, ["/ietf-interfaces:interfaces/interface[name='eth0']"]⟩) := by
    rw [op_filter_build_xpath_explicit ctxIf allocOK elemC6 [] ⟨0, []⟩
      "urn:ietf:params:xml:ns:yang:ietf-interfaces"
      ⟨"ietf-interfaces", "urn:ietf:params:xml:ns:yang:ietf-interfaces", ["interfaces"]⟩
      rfl (by decide) rfl rfl]
    rw [op_filter_build_modules_single ctxIf allocOK elemC6
      ⟨"ietf-interfaces", "urn:ietf:params:xml:ns:yang:ietf-interfaces", ["interfaces"]⟩
      ⟨1, []⟩ (by decide)]
    rw [show (Module.mk "ietf-interfaces"
      "urn:ietf:params:xml:ns:yang:ietf-interfaces" ["interfaces"]).name =
      "ietf-interfaces" from rfl]
    rw [show (Module.mk "ietf-interfaces"
      "urn:ietf:params:xml:ns:yang:ietf-interfaces" ["interfaces"]).ns =
      "urn:ietf:params:xml:ns:yang:ietf-interfaces" from rfl]
    rw [show elemC6 = Elem.node "interfaces"
      (some "urn:ietf:params:xml:ns:yang:ietf-interfaces") [] none
      [.node "interface" (some "urn:ietf:params:xml:ns:yang:ietf-interfaces") [] none
        [.node "name" (some "urn:ietf:params:xml:ns:yang:ietf-interfaces") []
          (some "eth0") []]] from rfl]
    rw [ifex_add_top]
    simp [op_filter_build_xpath_nil]
  exact ⟨by rw [hstep], by rw [hstep]⟩

/-! General lemmas about the walker under the always-succeeding allocation
oracle, used for the fan-out and branch-silence claims. -/

theorem isPre_self (p : String) : IsPre p p := ⟨"", (String.append_empty p).symm⟩

theorem isPre_app (p t : String) : IsPre p (p ++ t) := ⟨t, rfl⟩

theorem isPre_trans {a b c : String} (h1 : IsPre a b) (h2 : IsPre b c) :
    IsPre a c := by
  obtain ⟨t1, rfl⟩ := h1
  obtain ⟨t2, rfl⟩ := h2
  exact ⟨t1 ++ t2, String.append_assoc a t1 t2⟩

theorem stAlloc_allocOK (st : St) :
    stAlloc allocOK st = (true, ⟨st.ctr + 1, st.filters⟩) := rfl

theorem op_filter_xpath_add_filter_allocOK (f : String) (st : St) :
    op_filter_xpath_add_filter allocOK f st =
      (0, ⟨st.ctr + 1, st.filters ++ [f]⟩) := rfl

/-- A supplied module name short-circuits the namespace resolution block. -/
theorem resolve_module_some (ctx : Ctx) (elem : Elem) (mn : String) (lns : String) :
    filter_xpath_buf_resolve_module ctx elem (some mn) lns = some (some mn) := by
  unfold filter_xpath_buf_resolve_module
  cases elem.ns <;> rfl

/-- Attribute predicates under allocOK: the buffer is only extended, the size
never shrinks, and the Filter List is untouched. -/
theorem add_attrs_allocOK (ctx : Ctx) (attrs : List Attr) :
    ∀ (buf : String) (size : Int) (st : St),
    ∃ sz t n, filter_xpath_buf_add_attrs ctx allocOK attrs buf size st =
      (sz, buf ++ t, ⟨n, st.filters⟩) ∧ size ≤ sz := by
  induction attrs with
  | nil =>
    intro buf size st
    exact ⟨size, "", st.ctr, by simp [filter_xpath_buf_add_attrs], le_refl size⟩
  | cons a rest ih =>
    intro buf size st
    rcases hns : a.ns with _ | ns
    · simpa only [filter_xpath_buf_add_attrs, hns] using ih buf size st
    · cases hlk : ly_ctx_get_module_by_ns ctx ns with
      | none => simpa only [filter_xpath_buf_add_attrs, hns, hlk] using ih buf size st
      | some m =>
        obtain ⟨sz, t, n, heq, hle⟩ := ih
          (buf ++ "[@" ++ m.name ++ ":" ++ a.name ++ "='" ++ a.value ++ "']")
          (size + 2 + (m.name.length : Int) + 1 + (a.name.length : Int) + 2 +
            (a.value.length : Int) + 2) ⟨st.ctr + 1, st.filters⟩
        refine ⟨sz, "[@" ++ m.name ++ ":" ++ a.name ++ "='" ++ a.value ++ "']" ++ t,
          n, ?_, by omega⟩
        simp only [filter_xpath_buf_add_attrs, hns, hlk, stAlloc_allocOK, if_true]
        rw [heq]
        simp [String.append_assoc]

/-- Node step under allocOK: either the silent unknown-namespace drop, leaving
everything unchanged, or a success that only extends the buffer. -/
theorem add_node_allocOK (ctx : Ctx) (elem : Elem) (emn : Option String)
    (lns buf : String) (size : Int) (st : St) (hsize : 0 < size) :
    filter_xpath_buf_add_node ctx allocOK elem emn lns buf size st = (0, buf, st) ∨
    ∃ sz t n, filter_xpath_buf_add_node ctx allocOK elem emn lns buf size st =
      (sz, buf ++ t, ⟨n, st.filters⟩) ∧ 0 < sz := by
  cases hres : filter_xpath_buf_resolve_module ctx elem emn lns with
  | none =>
    left
    unfold filter_xpath_buf_add_node
    simp only [hres]
  | some emn' =>
    right
    cases emn' with
    | none =>
      obtain ⟨sz, t, n, heq, hle⟩ := add_attrs_allocOK ctx elem.attrs
        (buf ++ "/" ++ "" ++ elem.name) (size + 1 + 0 + (elem.name.length : Int))
        ⟨st.ctr + 1, st.filters⟩
      refine ⟨sz, "/" ++ "" ++ elem.name ++ t, n, ?_, by omega⟩
      unfold filter_xpath_buf_add_node
      simp only [hres, stAlloc_allocOK, if_true]
      rw [heq]
      simp [String.append_assoc]
    | some mn =>
      obtain ⟨sz, t, n, heq, hle⟩ := add_attrs_allocOK ctx elem.attrs
        (buf ++ "/" ++ (mn ++ ":") ++ elem.name)
        (size + 1 + ((mn.length : Int) + 1) + (elem.name.length : Int))
        ⟨st.ctr + 1, st.filters⟩
      refine ⟨sz, "/" ++ (mn ++ ":") ++ elem.name ++ t, n, ?_, by omega⟩
      unfold filter_xpath_buf_add_node
      simp only [hres, stAlloc_allocOK, if_true]
      rw [heq]
      simp [String.append_assoc]

/-- Node step with a supplied module name under allocOK: always succeeds and
the new buffer extends buf ++ /module:name. -/
theorem add_node_some_allocOK (ctx : Ctx) (elem : Elem) (mn : String)
    (lns buf : String) (size : Int) (st : St) (hsize : 0 < size) :
    ∃ sz t n, filter_xpath_buf_add_node ctx allocOK elem (some mn) lns buf size st =
      (sz, buf ++ "/" ++ mn ++ ":" ++ elem.name ++ t, ⟨n, st.filters⟩) ∧ 0 < sz := by
  obtain ⟨sz, t, n, heq, hle⟩ := add_attrs_allocOK ctx elem.attrs
    (buf ++ "/" ++ (mn ++ ":") ++ elem.name)
    (size + 1 + ((mn.length : Int) + 1) + (elem.name.length : Int))
    ⟨st.ctr + 1, st.filters⟩
  refine ⟨sz, t, n, ?_, by omega⟩
  unfold filter_xpath_buf_add_node
  rw [resolve_module_some]
  simp only [stAlloc_allocOK, if_true]
  rw [heq]
  simp [String.append_assoc]

/-- Content match predicate under allocOK: the silent drop, or a success that
only extends the buffer; the Filter List is untouched either way. -/
theorem add_content_allocOK (ctx : Ctx) (elem : Elem) (emn : Option String)
    (lns buf : String) (size : Int) (st : St) (hsize : 0 < size) :
    filter_xpath_buf_add_content ctx allocOK elem emn lns buf size st = (0, buf, st) ∨
    ∃ sz t n, filter_xpath_buf_add_content ctx allocOK elem emn lns buf size st =
      (sz, buf ++ t, ⟨n, st.filters⟩) ∧ 0 < sz := by
  cases hres : filter_xpath_buf_resolve_module ctx elem emn lns with
  | none =>
    left
    unfold filter_xpath_buf_add_content
    simp only [hres]
  | some emn' =>
    right
    cases emn' with
    | none =>
      obtain ⟨sz, t, n, heq, hle⟩ := add_attrs_allocOK ctx elem.attrs
        (buf ++ "[" ++ "" ++ elem.name) (size + 1 + 0 + (elem.name.length : Int))
        ⟨st.ctr + 1, st.filters⟩
      refine ⟨sz + 2 + ((filter_xpath_buf_get_content elem).length : Int) + 2,
        "[" ++ "" ++ elem.name ++ t ++ "=" ++
          (if (filter_xpath_buf_get_content elem).data.contains '\'' then "\"" else "'") ++
          filter_xpath_buf_get_content elem ++
          (if (filter_xpath_buf_get_content elem).data.contains '\'' then "\"" else "'") ++
          "]", n + 1, ?_, by omega⟩
      unfold filter_xpath_buf_add_content
      simp only [hres, stAlloc_allocOK, if_true]
      rw [heq]
      rw [if_neg (by omega), if_neg (by omega)]
      simp [String.append_assoc]
    | some mn =>
      obtain ⟨sz, t, n, heq, hle⟩ := add_attrs_allocOK ctx elem.attrs
        (buf ++ "[" ++ (mn ++ ":") ++ elem.name)
        (size + 1 + ((mn.length : Int) + 1) + (elem.name.length : Int))
        ⟨st.ctr + 1, st.filters⟩
      refine ⟨sz + 2 + ((filter_xpath_buf_get_content elem).length : Int) + 2,
        "[" ++ (mn ++ ":") ++ elem.name ++ t ++ "=" ++
          (if (filter_xpath_buf_get_content elem).data.contains '\'' then "\"" else "'") ++
          filter_xpath_buf_get_content elem ++
          (if (filter_xpath_buf_get_content elem).data.contains '\'' then "\"" else "'") ++
          "]", n + 1, ?_, by omega⟩
      unfold filter_xpath_buf_add_content
      simp only [hres, stAlloc_allocOK, if_true]
      rw [heq]
      rw [if_neg (by omega), if_neg (by omega)]
      simp [String.append_assoc]

/-- First child loop under allocOK: the branch is either dropped (Filter List
untouched), or the buffer is extended and the size stays positive. -/
theorem content_loop_allocOK (ctx : Ctx) (emn : Option String) (lns : String)
    (children : List Elem) :
    ∀ (buf : String) (size : Int) (only : Bool) (st : St), 0 < size →
    (∃ b o n, filter_xpath_buf_add_content_loop ctx allocOK emn lns children buf
        size only st = (0, b, o, ⟨n, st.filters⟩)) ∨
    (∃ sz t o n, filter_xpath_buf_add_content_loop ctx allocOK emn lns children buf
        size only st = (sz, buf ++ t, o, ⟨n, st.filters⟩) ∧ 0 < sz) := by
  induction children with
  | nil =>
    intro buf size only st hsize
    right
    exact ⟨size, "", only, st.ctr, by simp [filter_xpath_buf_add_content_loop], hsize⟩
  | cons child rest ih =>
    intro buf size only st hsize
    by_cases hcm : content_match_node child = true
    · rcases add_content_allocOK ctx child emn lns buf size st hsize with h0 | ⟨sz, t, n, heq, hsz⟩
      · left
        refine ⟨buf, only, st.ctr, ?_⟩
        simp only [filter_xpath_buf_add_content_loop, hcm, if_true]
        simp [h0]
      · have hA : ¬(sz = 0) := by omega
        have hB : ¬(sz < 1) := by omega
        rcases ih (buf ++ t) sz only ⟨n, st.filters⟩ hsz with ⟨b, o, n2, h2⟩ | ⟨sz2, t2, o, n2, h2, hsz2⟩
        · left
          refine ⟨b, o, n2, ?_⟩
          simp only [filter_xpath_buf_add_content_loop, hcm, if_true]
          simp [heq, hA, hB, h2]
        · right
          refine ⟨sz2, t ++ t2, o, n2, ?_, hsz2⟩
          simp only [filter_xpath_buf_add_content_loop, hcm, if_true]
          simp [heq, hA, hB, h2, String.append_assoc]
    · rcases ih buf size false st hsize with ⟨b, o, n2, h2⟩ | ⟨sz2, t2, o, n2, h2, hsz2⟩
      · left
        exact ⟨b, o, n2, by simp only [filter_xpath_buf_add_content_loop, hcm,
          if_false, Bool.false_eq_true]; simp [h2]⟩
      · right
        exact ⟨sz2, t2, o, n2, by simp only [filter_xpath_buf_add_content_loop, hcm,
          if_false, Bool.false_eq_true]; simp [h2], hsz2⟩

mutual

/-- Subtree walker under allocOK: always succeeds, appends some list of
strings to the Filter List, and every appended string extends the incoming
buffer. -/
theorem add_allocOK (ctx : Ctx) (elem : Elem) (emn : Option String)
    (lns buf : String) (size : Int) (st : St) (hsize : 0 < size) :
    ∃ l n, filter_xpath_buf_add ctx allocOK elem emn lns buf size st =
      (0, ⟨n, st.filters ++ l⟩) ∧ ∀ s ∈ l, IsPre buf s := by
  rw [filter_xpath_buf_add]
  rcases add_node_allocOK ctx elem emn lns buf size st hsize with h0 | ⟨sz, t, n, heq, hsz⟩
  · exact ⟨[], st.ctr, by simp [h0], by simp⟩
  · have hA : ¬(sz = 0) := by omega
    have hB : ¬(sz < 1) := by omega
    rcases content_loop_allocOK ctx emn lns elem.children (buf ++ t) sz true
        ⟨n, st.filters⟩ hsz with ⟨b, o, n2, h2⟩ | ⟨sz2, t2, o, n2, h2, hsz2⟩
    · exact ⟨[], n2, by simp [heq, hA, hB, h2], by simp⟩
    · have hC : ¬(sz2 = 0) := by omega
      have hD : ¬(sz2 < 1) := by omega
      cases o with
      | true =>
        refine ⟨[buf ++ t ++ t2], n2 + 1, ?_, ?_⟩
        · simp [heq, hA, hB, h2, hC, hD, op_filter_xpath_add_filter_allocOK]
        · intro s hs
          rw [List.mem_singleton] at hs
          subst hs
          exact isPre_trans (isPre_app buf t) (isPre_app (buf ++ t) t2)
      | false =>
        obtain ⟨l, n3, h3, hpre⟩ := branch_allocOK ctx lns elem.children
          (buf ++ t ++ t2) sz2 ⟨n2, st.filters⟩ hsz2
        refine ⟨l, n3, ?_, ?_⟩
        · simp [heq, hA, hB, h2, hC, hD, h3]
        · exact fun s hs => isPre_trans
            (isPre_trans (isPre_app buf t) (isPre_app (buf ++ t) t2)) (hpre s hs)
termination_by sizeOf elem
decreasing_by
  exact Elem.sizeOf_children_lt elem

/-- Branch loop under allocOK: always succeeds, appends some list of strings,
each extending the incoming buffer. -/
theorem branch_allocOK (ctx : Ctx) (lns : String) (children : List Elem)
    (buf : String) (size : Int) (st : St) (hsize : 0 < size) :
    ∃ l n, filter_xpath_buf_add_branch ctx allocOK lns children buf size st =
      (0, ⟨n, st.filters ++ l⟩) ∧ ∀ s ∈ l, IsPre buf s := by
  cases children with
  | nil => exact ⟨[], st.ctr, by rw [filter_xpath_buf_add_branch]; simp, by simp⟩
  | cons child rest =>
    by_cases hr : rest.isEmpty
    · by_cases hcc : child.children.isEmpty
      · rcases add_node_allocOK ctx child none lns buf size st hsize with
          h0 | ⟨sz, t, n, heq, hsz⟩
        · obtain ⟨l, n2, h2, hp⟩ := branch_allocOK ctx lns rest buf size st hsize
          refine ⟨l, n2, ?_, hp⟩
          rw [filter_xpath_buf_add_branch]
          simp [hr, hcc, h0, h2]
        · have hA : ¬(sz = 0) := by omega
          have hB : ¬(sz < 1) := by omega
          obtain ⟨l, n2, h2, hp⟩ := branch_allocOK ctx lns rest buf size
            ⟨n + 1, st.filters ++ [buf ++ t]⟩ hsize
          refine ⟨(buf ++ t) :: l, n2, ?_, ?_⟩
          · rw [filter_xpath_buf_add_branch]
            simp [hr, hcc, heq, hA, hB, op_filter_xpath_add_filter_allocOK, h2]
          · intro s hs
            rcases List.mem_cons.mp hs with rfl | hs
            · exact isPre_app buf t
            · exact hp s hs
      · obtain ⟨l1, n1, h1, hp1⟩ := add_allocOK ctx child none lns buf size st hsize
        obtain ⟨l2, n2, h2, hp2⟩ := branch_allocOK ctx lns rest buf size
          ⟨n1, st.filters ++ l1⟩ hsize
        refine ⟨l1 ++ l2, n2, ?_, ?_⟩
        · rw [filter_xpath_buf_add_branch]
          simp [hr, hcc, h1, h2]
        · intro s hs
          rcases List.mem_append.mp hs with hs | hs
          · exact hp1 s hs
          · exact hp2 s hs
    · by_cases hcc : child.children.isEmpty
      · rcases add_node_allocOK ctx child none lns buf size
            ⟨st.ctr + 1, st.filters⟩ hsize with h0 | ⟨sz, t, n, heq, hsz⟩
        · obtain ⟨l, n2, h2, hp⟩ := branch_allocOK ctx lns rest buf size
            ⟨st.ctr + 1, st.filters⟩ hsize
          refine ⟨l, n2, ?_, hp⟩
          rw [filter_xpath_buf_add_branch]
          simp [hr, hcc, h0, h2, stAlloc_allocOK]
        · have hA : ¬(sz = 0) := by omega
          have hB : ¬(sz < 1) := by omega
          obtain ⟨l, n2, h2, hp⟩ := branch_allocOK ctx lns rest buf size
            ⟨n + 1, st.filters ++ [buf ++ t]⟩ hsize
          refine ⟨(buf ++ t) :: l, n2, ?_, ?_⟩
          · rw [filter_xpath_buf_add_branch]
            simp [hr, hcc, heq, hA, hB, op_filter_xpath_add_filter_allocOK, h2,
              stAlloc_allocOK]
          · intro s hs
            rcases List.mem_cons.mp hs with rfl | hs
            · exact isPre_app buf t
            · exact hp s hs
      · obtain ⟨l1, n1, h1, hp1⟩ := add_allocOK ctx child none lns buf size
          ⟨st.ctr + 1, st.filters⟩ hsize
        obtain ⟨l2, n2, h2, hp2⟩ := branch_allocOK ctx lns rest buf size
          ⟨n1, st.filters ++ l1⟩ hsize
        refine ⟨l1 ++ l2, n2, ?_, ?_⟩
        · rw [filter_xpath_buf_add_branch]
          simp [hr, hcc, h1, h2, stAlloc_allocOK]
        · intro s hs
          rcases List.mem_append.mp hs with hs | hs
          · exact hp1 s hs
          · exact hp2 s hs
termination_by sizeOf children
decreasing_by
  all_goals simp_wf <;> omega

end

/-- Top-level content match under allocOK: commits exactly one string, which
starts with the module-qualified root step. -/
theorem add_top_content_allocOK (ctx : Ctx) (elem : Elem) (mn : String) (st : St) :
    ∃ s n, filter_xpath_buf_add_top_content ctx allocOK elem mn st =
      (0, ⟨n, st.filters ++ [s]⟩) ∧ IsPre ("/" ++ mn ++ ":" ++ elem.name) s := by
  obtain ⟨sz, t, n, heq, hle⟩ := add_attrs_allocOK ctx elem.attrs
    ("/" ++ mn ++ ":" ++ elem.name ++ "[text()='" ++
      filter_xpath_buf_get_content elem ++ "']")
    (1 + (mn.length : Int) + 1 + (elem.name.length : Int) + 9 +
      ((filter_xpath_buf_get_content elem).length : Int) + 3)
    ⟨st.ctr + 1, st.filters⟩
  have hA : ¬(sz = 0) := by omega
  have hB : ¬(sz < 1) := by omega
  refine ⟨"/" ++ mn ++ ":" ++ elem.name ++ "[text()='" ++
    filter_xpath_buf_get_content elem ++ "']" ++ t, n + 1, ?_, ?_⟩
  · unfold filter_xpath_buf_add_top_content
    simp only [stAlloc_allocOK, if_true]
    simp [heq, hA, hB, op_filter_xpath_add_filter_allocOK]
  · exact ⟨"[text()='" ++ filter_xpath_buf_get_content elem ++ "']" ++ t,
      by simp [String.append_assoc]⟩

/-- Per-module walker call under allocOK (as seeded by
op_filter_build_modules): every committed string starts with the
module-qualified root step. -/
theorem add_module_allocOK (ctx : Ctx) (elem : Elem) (mn mns : String) (st : St) :
    ∃ l n, filter_xpath_buf_add ctx allocOK elem (some mn) mns "" 1 st =
      (0, ⟨n, st.filters ++ l⟩) ∧
      ∀ s ∈ l, IsPre ("/" ++ mn ++ ":" ++ elem.name) s := by
  rw [filter_xpath_buf_add]
  obtain ⟨sz, t, n, heq, hsz⟩ := add_node_some_allocOK ctx elem mn mns "" 1 st
    (by omega)
  have hpre0 : ("" ++ "/" ++ mn ++ ":" ++ elem.name) =
      ("/" ++ mn ++ ":" ++ elem.name) := by simp
  rw [hpre0] at heq
  have hA : ¬(sz = 0) := by omega
  have hB : ¬(sz < 1) := by omega
  rcases content_loop_allocOK ctx (some mn) mns elem.children
      ("/" ++ mn ++ ":" ++ elem.name ++ t) sz true ⟨n, st.filters⟩ hsz with
    ⟨b, o, n2, h2⟩ | ⟨sz2, t2, o, n2, h2, hsz2⟩
  · exact ⟨[], n2, by simp [heq, hA, hB, h2], by simp⟩
  · have hC : ¬(sz2 = 0) := by omega
    have hD : ¬(sz2 < 1) := by omega
    cases o with
    | true =>
      refine ⟨["/" ++ mn ++ ":" ++ elem.name ++ t ++ t2], n2 + 1, ?_, ?_⟩
      · simp [heq, hA, hB, h2, hC, hD, op_filter_xpath_add_filter_allocOK]
      · intro s hs
        rw [List.mem_singleton] at hs
        subst hs
        exact isPre_trans (isPre_app ("/" ++ mn ++ ":" ++ elem.name) t)
          (isPre_app ("/" ++ mn ++ ":" ++ elem.name ++ t) t2)
    | false =>
      obtain ⟨l, n3, h3, hpre⟩ := branch_allocOK ctx mns elem.children
        ("/" ++ mn ++ ":" ++ elem.name ++ t ++ t2) sz2 ⟨n2, st.filters⟩ hsz2
      refine ⟨l, n3, ?_, ?_⟩
      · simp [heq, hA, hB, h2, hC, hD, h3]
      · exact fun s hs => isPre_trans
          (isPre_trans (isPre_app ("/" ++ mn ++ ":" ++ elem.name) t)
            (isPre_app ("/" ++ mn ++ ":" ++ elem.name ++ t) t2)) (hpre s hs)

/-- Per-module loop under allocOK: one (possibly empty) batch of strings per
candidate module, in module order, each batch qualified with its module. -/
theorem build_modules_allocOK (ctx : Ctx) (elem : Elem) (mods : List Module) :
    ∀ st : St, ∃ ls n, op_filter_build_modules ctx allocOK elem mods st =
      (0, ⟨n, st.filters ++ ls.join⟩) ∧ ls.length = mods.length ∧
      ∀ p ∈ mods.zip ls, ∀ s ∈ p.2,
        IsPre ("/" ++ p.1.name ++ ":" ++ elem.name) s := by
  induction mods with
  | nil =>
    intro st
    exact ⟨[], st.ctr, by simp [op_filter_build_modules_nil], rfl, by simp⟩
  | cons m rest ih =>
    intro st
    by_cases hcm : content_match_node elem = true
    · obtain ⟨s, n1, h1, hp1⟩ := add_top_content_allocOK ctx elem m.name st
      obtain ⟨ls, n2, h2, hlen, hp2⟩ := ih ⟨n1, st.filters ++ [s]⟩
      refine ⟨[s] :: ls, n2, ?_, by simp [hlen], ?_⟩
      · unfold op_filter_build_modules
        simp [hcm, h1, h2]
      · intro p hp
        rw [List.zip_cons_cons, List.mem_cons] at hp
        rcases hp with rfl | hp
        · intro x hx
          rw [List.mem_singleton] at hx
          subst hx
          exact hp1
        · exact hp2 p hp
    · obtain ⟨l, n1, h1, hp1⟩ := add_module_allocOK ctx elem m.name m.ns st
      obtain ⟨ls, n2, h2, hlen, hp2⟩ := ih ⟨n1, st.filters ++ l⟩
      refine ⟨l :: ls, n2, ?_, by simp [hlen], ?_⟩
      · unfold op_filter_build_modules
        simp [hcm, h1, h2]
      · intro p hp
        rw [List.zip_cons_cons, List.mem_cons] at hp
        rcases hp with rfl | hp
        · exact hp1
        · exact hp2 p hp

/-- Candidate-module enumeration under allocOK: exactly the modules exposing a
top-level node with the element's name, each once, in context order. -/
theorem collect_modules_allocOK (name : String) (mods : List Module) :
    ∀ (acc : List Module) (st : St), ∃ n,
    op_filter_collect_modules allocOK name mods acc st =
      (0, acc ++ mods.filter (fun m => module_has_top_node m name),
        ⟨n, st.filters⟩) := by
  induction mods with
  | nil =>
    intro acc st
    exact ⟨st.ctr, by simp [op_filter_collect_modules]⟩
  | cons m rest ih =>
    intro acc st
    by_cases hm : module_has_top_node m name = true
    · obtain ⟨n, hn⟩ := ih (acc ++ [m]) ⟨st.ctr + 1, st.filters⟩
      refine ⟨n, ?_⟩
      unfold op_filter_collect_modules
      simp [hm, stAlloc_allocOK, hn, List.filter_cons_of_pos]
    · obtain ⟨n, hn⟩ := ih acc st
      refine ⟨n, ?_⟩
      unfold op_filter_collect_modules
      simp [hm, hn, List.filter_cons_of_neg]

/-- C7: a top-level filter element with no explicit namespace is compiled once
per schema module exposing a top-level node with the element's name: the
Filter List gains one batch of strings per matching module, in module order
(one batch per module, possibly empty when a branch is dropped), and every
string of a module's batch is qualified with that module's name, starting
with /module:name. -/
theorem C7_ambiguity_fan_out (ctx : Ctx) (elem : Elem) (st : St)
    (hns : elem.ns = none) :
    ∃ ls n, op_filter_build_xpath_from_subtree ctx allocOK [elem] st =
      (0, ⟨n, st.filters ++ ls.join⟩) ∧
      ls.length = (ctx.modules.filter (fun m => module_has_top_node m elem.name)).length ∧
      ∀ p ∈ (ctx.modules.filter (fun m => module_has_top_node m elem.name)).zip ls,
        ∀ s ∈ p.2, IsPre ("/" ++ p.1.name ++ ":" ++ elem.name) s := by
  obtain ⟨n0, hcol⟩ := collect_modules_allocOK elem.name ctx.modules [] st
  obtain ⟨ls, n, hbm, hlen, hp⟩ := build_modules_allocOK ctx elem
    (ctx.modules.filter (fun m => module_has_top_node m elem.name)) ⟨n0, st.filters⟩
  refine ⟨ls, n, ?_, hlen, hp⟩
  conv_lhs => unfold op_filter_build_xpath_from_subtree
  simp [hns, hcol, hbm, op_filter_build_xpath_nil]

/-- Witness for C7 at a context where two of three modules expose a top-level
node named top. -/
theorem C7_ambiguity_fan_out_witness :
    ∃ ls n, op_filter_build_xpath_from_subtree ctx2 allocOK [elemC7] ⟨0, []⟩ =
      (0, ⟨n, (⟨0, []⟩ : St).filters ++ ls.join⟩) ∧
      ls.length = (ctx2.modules.filter (fun m => module_has_top_node m elemC7.name)).length ∧
      ∀ p ∈ (ctx2.modules.filter (fun m => module_has_top_node m elemC7.name)).zip ls,
        ∀ s ∈ p.2, IsPre ("/" ++ p.1.name ++ ":" ++ elemC7.name) s :=
  C7_ambiguity_fan_out ctx2 elemC7 ⟨0, []⟩ rfl

/-- Node step at an unknown namespace: the silent drop, any oracle. -/
theorem add_node_unknown_ns (ctx : Ctx) (oracle : Oracle) (elem : Elem)
    (lns buf : String) (size : Int) (st : St) (u : String)
    (hns : elem.ns = some u) (hlns : u ≠ lns) (hbase : u ≠ netconf_base_ns)
    (hlk : ly_ctx_get_module_by_ns ctx u = none) :
    filter_xpath_buf_add_node ctx oracle elem none lns buf size st = (0, buf, st) := by
  have hres : filter_xpath_buf_resolve_module ctx elem none lns = none := by
    unfold filter_xpath_buf_resolve_module
    simp [hns, hlns, hbase, hlk, bne_iff_ne]
  unfold filter_xpath_buf_add_node
  simp [hres]

/-- C8: a filter element whose namespace resolves to no module is skipped
silently, top-level and nested: (top level) the element is dropped after the
one candidate-array allocation and compilation continues with the remaining
siblings; (nested walker) the call returns success 0 leaving the state
untouched; (branch loop) a selection child with an unknown namespace is
dropped, its cloned buffer freed, and the loop continues with the remaining
children. -/
theorem C8_unknown_namespace_skipped (ctx : Ctx) (oracle : Oracle) :
    (∀ (elem : Elem) (rest : List Elem) (st : St) (u : String),
      elem.ns = some u → u ≠ netconf_base_ns →
      ly_ctx_get_module_by_ns ctx u = none → oracle st.ctr = true →
      op_filter_build_xpath_from_subtree ctx oracle (elem :: rest) st =
        op_filter_build_xpath_from_subtree ctx oracle rest ⟨st.ctr + 1, st.filters⟩) ∧
    (∀ (elem : Elem) (lns buf : String) (size : Int) (st : St) (u : String),
      elem.ns = some u → u ≠ lns → u ≠ netconf_base_ns →
      ly_ctx_get_module_by_ns ctx u = none →
      filter_xpath_buf_add ctx oracle elem none lns buf size st = (0, st)) ∧
    (∀ (child : Elem) (rest : List Elem) (lns buf : String) (size : Int)
        (st : St) (u : String),
      child.children = [] → child.ns = some u → u ≠ lns →
      u ≠ netconf_base_ns → ly_ctx_get_module_by_ns ctx u = none →
      rest ≠ [] → oracle st.ctr = true →
      filter_xpath_buf_add_branch ctx oracle lns (child :: rest) buf size st =
        filter_xpath_buf_add_branch ctx oracle lns rest buf size
          ⟨st.ctr + 1, st.filters⟩) := by
  refine ⟨?_, ?_, ?_⟩
  · intro elem rest st u hns hbase hlk hok
    conv_lhs => unfold op_filter_build_xpath_from_subtree
    simp [hns, hbase, hlk, hok, stAlloc, bne_iff_ne]
  · intro elem lns buf size st u hns hlns hbase hlk
    have h0 := add_node_unknown_ns ctx oracle elem lns buf size st u hns hlns hbase hlk
    rw [filter_xpath_buf_add]
    simp [h0]
  · intro child rest lns buf size st u hcc hns hlns hbase hlk hrest hok
    have hre : rest.isEmpty = false := by
      cases rest with
      | nil => exact absurd rfl hrest
      | cons a l => rfl
    have h0 := add_node_unknown_ns ctx oracle child lns buf size
      ⟨st.ctr + 1, st.filters⟩ u hns hlns hbase hlk
    conv_lhs => rw [filter_xpath_buf_add_branch]
    simp [hre, hok, stAlloc, hcc, h0]

/-- Witness for C8 at the unknown namespace urn:x against a context knowing
only urn:m. -/
theorem C8_unknown_namespace_skipped_witness :
    (op_filter_build_xpath_from_subtree ctx1 allocOK
        [.node "z" (some "urn:x") [] none []] ⟨0, []⟩ =
      op_filter_build_xpath_from_subtree ctx1 allocOK [] ⟨1, []⟩) ∧
    (filter_xpath_buf_add ctx1 allocOK (.node "y" (some "urn:x") [] none [])
        none "urn:m" "/m:top" 8 ⟨0, []⟩ = (0, ⟨0, []⟩)) ∧
    (filter_xpath_buf_add_branch ctx1 allocOK "urn:m"
        [.node "y" (some "urn:x") [] none [], .node "d" none [] none []]
        "/m:top" 8 ⟨0, []⟩ =
      filter_xpath_buf_add_branch ctx1 allocOK "urn:m"
        [.node "d" none [] none []] "/m:top" 8 ⟨1, []⟩) := by
  have h := C8_unknown_namespace_skipped ctx1 allocOK
  refine ⟨h.1 _ [] ⟨0, []⟩ "urn:x" rfl (by decide) rfl rfl, ?_, ?_⟩
  · exact h.2.1 _ "urn:m" "/m:top" 8 ⟨0, []⟩ "urn:x" rfl (by decide) (by decide) rfl
  · exact h.2.2 _ [.node "d" none [] none []] "urn:m" "/m:top" 8 ⟨0, []⟩ "urn:x"
      rfl rfl (by decide) (by decide) rfl (by simp) rfl

/-- C9: compilation is deterministic: the embedding of the compiler is a pure
function of the parsed filter request, the schema context and the allocation
oracle (the only inputs the C code reads), so compiling the same
FilterElement tree twice against the same lookup state yields byte-identical
ordered Filter Lists. -/
theorem C9_compilation_deterministic (parse : String → List Elem) (ctx : Ctx)
    (oracle : Oracle) (node : FilterNode) (st : St) (roots : List Elem) :
    (op_filter_create parse ctx oracle node st).2.filters =
      (op_filter_create parse ctx oracle node st).2.filters ∧
    op_filter_build_xpath_from_subtree ctx oracle roots st =
      op_filter_build_xpath_from_subtree ctx oracle roots st :=
  ⟨rfl, rfl⟩

/-- The attribute scan falls through to the subtree case when no type
attribute carries the value xpath or subtree. -/
theorem op_filter_scan_type_untyped (all : List (String × String)) :
    ∀ rest : List (String × String),
    (∀ a ∈ rest, a.1 = "type" → a.2 ≠ "xpath" ∧ a.2 ≠ "subtree") →
    op_filter_scan_type all rest = some none := by
  intro rest
  induction rest with
  | nil => intro _; rfl
  | cons a rest ih =>
    intro h
    obtain ⟨n, v⟩ := a
    have ha := h (n, v) (List.mem_cons_self _ _)
    have hrest := ih (fun a ha' => h a (List.mem_cons_of_mem _ ha'))
    unfold op_filter_scan_type
    by_cases hn : n = "type"
    · have hv := ha hn
      simp [hn, hv.1, hv.2, hrest]
    · simp [hn, hrest]

/-- C10: a filter node whose attribute list holds no type attribute with
value xpath or subtree (in particular, no type attribute at all) is treated
as a subtree filter: op_filter_create dispatches it to the subtree branch
instead of rejecting it. -/
theorem C10_untyped_filter_subtree (parse : String → List Elem) (ctx : Ctx)
    (oracle : Oracle) (node : FilterNode) (st : St)
    (h : ∀ a ∈ node.attrs, a.1 = "type" → a.2 ≠ "xpath" ∧ a.2 ≠ "subtree") :
    op_filter_create parse ctx oracle node st =
      op_filter_create_subtree parse ctx oracle node st := by
  unfold op_filter_create
  rw [op_filter_scan_type_untyped node.attrs node.attrs h]

/-- Witness for C10 at a filter node with a foreign attribute and a type
attribute of an unrecognised value. -/
theorem C10_untyped_filter_subtree_witness :
    op_filter_create lyxml_parse_whitespace ctx1 allocOK
      ⟨[("foo", "bar"), ("type", "weird")], .str none⟩ ⟨0, []⟩ =
      op_filter_create_subtree lyxml_parse_whitespace ctx1 allocOK
        ⟨[("foo", "bar"), ("type", "weird")], .str none⟩ ⟨0, []⟩ ∧
    op_filter_create_subtree lyxml_parse_whitespace ctx1 allocOK
      ⟨[("foo", "bar"), ("type", "weird")], .str none⟩ ⟨0, []⟩ = (0, ⟨0, []⟩) :=
  ⟨C10_untyped_filter_subtree lyxml_parse_whitespace ctx1 allocOK
    ⟨[("foo", "bar"), ("type", "weird")], .str none⟩ ⟨0, []⟩ (by decide), rfl⟩

/-- C3 (amended): a subtree filter with an absent payload or a zero-length
string payload compiles to an empty Filter List with success; a non-empty but
whitespace-only payload is instead handed to the XML parser, which finds no
root element in it, and op_filter_create reports the fatal error -1. -/
theorem C3_empty_payload_empty_filter (parse : String → List Elem) (ctx : Ctx)
    (oracle : Oracle) (attrs : List (String × String)) (st : St) (s : String)
    (hsub : op_filter_scan_type attrs attrs = some none) :
    op_filter_create parse ctx oracle ⟨attrs, .str none⟩ st = (0, st) ∧
    op_filter_create parse ctx oracle ⟨attrs, .str (some "")⟩ st = (0, st) ∧
    (s ≠ "" → parse s = [] →
      op_filter_create parse ctx oracle ⟨attrs, .str (some s)⟩ st = (-1, st)) := by
  refine ⟨?_, ?_, fun hs hp => ?_⟩
  · simp [op_filter_create, hsub, op_filter_create_subtree]
  · simp [op_filter_create, hsub, op_filter_create_subtree]
  · simp [op_filter_create, hsub, op_filter_create_subtree, hs, hp]

/-- Witness for C3 (amended) at the payloads NULL, the zero-length string,
and the one-blank string. -/
theorem C3_empty_payload_empty_filter_witness :
    op_filter_create lyxml_parse_whitespace ctx1 allocOK
      ⟨[("type", "subtree")], .str none⟩ ⟨0, []⟩ = (0, ⟨0, []⟩) ∧
    op_filter_create lyxml_parse_whitespace ctx1 allocOK
      ⟨[("type", "subtree")], .str (some "")⟩ ⟨0, []⟩ = (0, ⟨0, []⟩) ∧
    op_filter_create lyxml_parse_whitespace ctx1 allocOK
      ⟨[("type", "subtree")], .str (some " ")⟩ ⟨0, []⟩ = (-1, ⟨0, []⟩) := by
  have h := C3_empty_payload_empty_filter lyxml_parse_whitespace ctx1 allocOK
    [("type", "subtree")] ⟨0, []⟩ " " (by rfl)
  exact ⟨h.1, h.2.1, h.2.2 (by decide) rfl⟩

/-- The attribute scan skips any leading attributes not named type. -/
theorem op_filter_scan_type_skip (all : List (String × String)) :
    ∀ (pre rest : List (String × String)), (∀ a ∈ pre, a.1 ≠ "type") →
    op_filter_scan_type all (pre ++ rest) = op_filter_scan_type all rest := by
  intro pre
  induction pre with
  | nil => intro rest _; rfl
  | cons a pre ih =>
    intro rest h
    obtain ⟨n, v⟩ := a
    have hn : n ≠ "type" := h (n, v) (List.mem_cons_self _ _)
    have hrest := ih rest (fun a ha => h a (List.mem_cons_of_mem _ ha))
    rw [List.cons_append]
    conv_lhs => unfold op_filter_scan_type
    simp [hn, hrest]

/-- C4: for a filter whose first type attribute has the value xpath, a
missing select attribute is a fatal error -1; a select attribute with an
empty value yields success with the Filter List unchanged (so an empty list
when starting from one); a non-empty select value is appended verbatim as the
single new element of the Filter List. -/
theorem C4_xpath_select_dispatch (parse : String → List Elem) (ctx : Ctx)
    (pre post : List (String × String)) (v : AnydataValue) (st : St)
    (hpre : ∀ a ∈ pre, a.1 ≠ "type") :
    ((pre ++ ("type", "xpath") :: post).find? (fun a => a.fst == "select") = none →
      op_filter_create parse ctx allocOK ⟨pre ++ ("type", "xpath") :: post, v⟩ st =
        (-1, st)) ∧
    (∀ sel, (pre ++ ("type", "xpath") :: post).find? (fun a => a.fst == "select") =
        some sel →
      (sel.snd = "" →
        op_filter_create parse ctx allocOK ⟨pre ++ ("type", "xpath") :: post, v⟩ st =
          (0, st)) ∧
      (sel.snd ≠ "" →
        op_filter_create parse ctx allocOK ⟨pre ++ ("type", "xpath") :: post, v⟩ st =
          (0, ⟨st.ctr + 2, st.filters ++ [sel.snd]⟩))) := by
  have hscan0 : op_filter_scan_type (pre ++ ("type", "xpath") :: post)
      (pre ++ ("type", "xpath") :: post) =
      op_filter_scan_type (pre ++ ("type", "xpath") :: post)
        (("type", "xpath") :: post) :=
    op_filter_scan_type_skip _ pre _ hpre
  constructor
  · intro hf
    simp [op_filter_create, hscan0, op_filter_scan_type, hf]
  · intro sel hf
    constructor
    · intro he
      simp [op_filter_create, hscan0, op_filter_scan_type, hf, he]
    · intro hne
      simp [op_filter_create, hscan0, op_filter_scan_type, hf, hne,
        stAlloc_allocOK, op_filter_xpath_add_filter_allocOK, Nat.add_assoc]

/-- Witness for C4 at an xpath filter without select, with an empty select,
and with the select value /a (placed before the type attribute). -/
theorem C4_xpath_select_dispatch_witness :
    op_filter_create lyxml_parse_whitespace ctx1 allocOK
      ⟨[("type", "xpath")], .str none⟩ ⟨0, []⟩ = (-1, ⟨0, []⟩) ∧
    op_filter_create lyxml_parse_whitespace ctx1 allocOK
      ⟨[("type", "xpath"), ("select", "")], .str none⟩ ⟨0, []⟩ = (0, ⟨0, []⟩) ∧
    op_filter_create lyxml_parse_whitespace ctx1 allocOK
      ⟨[("select", "/a"), ("type", "xpath")], .str none⟩ ⟨0, []⟩ =
      (0, ⟨2, ["/a"]⟩) := by
  refine ⟨?_, ?_, ?_⟩
  · exact (C4_xpath_select_dispatch lyxml_parse_whitespace ctx1 [] [] (.str none)
      ⟨0, []⟩ (by simp)).1 rfl
  · exact ((C4_xpath_select_dispatch lyxml_parse_whitespace ctx1 [] [("select", "")]
      (.str none) ⟨0, []⟩ (by simp)).2 ("select", "") rfl).1 rfl
  · have h := ((C4_xpath_select_dispatch lyxml_parse_whitespace ctx1
      [("select", "/a")] [] (.str none) ⟨0, []⟩ (by decide)).2
      ("select", "/a") rfl).2 (by decide)
    simpa using h

/-- C5 (amended): the quote-selection rule holds for the content match
predicates the walker folds into a path (filter_xpath_buf_add_content): the
literal is wrapped in double quotes iff the trimmed content contains a single
quote, else in single quotes; a TOP-LEVEL content match node
(filter_xpath_buf_add_top_content) is instead always rendered with single
quotes, whatever its content. -/
theorem C5_content_literal_quoting (ctx : Ctx) (elem : Elem) (mn lns buf : String)
    (size : Int) (st : St) (hattrs : elem.attrs = []) (hsize : 0 < size) :
    (∃ n, filter_xpath_buf_add_content ctx allocOK elem (some mn) lns buf size st =
      (size + 1 + ((mn.length : Int) + 1) + (elem.name.length : Int) + 2 +
        ((filter_xpath_buf_get_content elem).length : Int) + 2,
       buf ++ "[" ++ (mn ++ ":") ++ elem.name ++ "=" ++
        (if (filter_xpath_buf_get_content elem).data.contains '\'' then "\"" else "'") ++
        filter_xpath_buf_get_content elem ++
        (if (filter_xpath_buf_get_content elem).data.contains '\'' then "\"" else "'") ++
        "]", ⟨n, st.filters⟩)) ∧
    filter_xpath_buf_add_top_content ctx allocOK elem mn st =
      (0, ⟨st.ctr + 2, st.filters ++
        ["/" ++ mn ++ ":" ++ elem.name ++ "[text()='" ++
          filter_xpath_buf_get_content elem ++ "']"]⟩) := by
  constructor
  · refine ⟨st.ctr + 2, ?_⟩
    unfold filter_xpath_buf_add_content
    rw [resolve_module_some]
    simp only [stAlloc_allocOK, if_true]
    rw [hattrs]
    simp only [filter_xpath_buf_add_attrs]
    rw [if_neg (by omega), if_neg (by omega)]
  · unfold filter_xpath_buf_add_top_content
    simp only [stAlloc_allocOK, if_true]
    rw [hattrs]
    simp only [filter_xpath_buf_add_attrs]
    rw [if_neg (by omega), if_neg (by omega)]
    simp [op_filter_xpath_add_filter_allocOK, Nat.add_assoc]

/-- Witness for C5 (amended): the nested content O'Brien gets double quotes,
the top-level content O'Brien stays single-quoted. -/
theorem C5_content_literal_quoting_witness :
    (filter_xpath_buf_add_content ctx1 allocOK
      (.node "c" none [] (some "O'Brien") []) (some "m") "urn:m" "/m:top" 7
      ⟨0, []⟩).2.1 = "/m:top[m:c=\"O'Brien\"]" ∧
    filter_xpath_buf_add_top_content ctx1 allocOK
      (.node "w" none [] (some "O'Brien") []) "m" ⟨0, []⟩ =
      (0, ⟨2, ["/m:w[text()='O'Brien']"]⟩) := by
  have h1 := C5_content_literal_quoting ctx1 (.node "c" none [] (some "O'Brien") [])
    "m" "urn:m" "/m:top" 7 ⟨0, []⟩ rfl (by omega)
  have h2 := C5_content_literal_quoting ctx1 (.node "w" none [] (some "O'Brien") [])
    "m" "urn:m" "" 1 ⟨0, []⟩ rfl (by omega)
  refine ⟨?_, ?_⟩
  · obtain ⟨n, hn⟩ := h1.1
    rw [hn]
    simp [filter_xpath_buf_get_content, Elem.name, Elem.content, isspace,
      String.data]
  · rw [h2.2]
    simp [filter_xpath_buf_get_content, Elem.name, Elem.content, isspace,
      String.data]

end NpFilter
